import Mathlib

/-
  Shallow embedding of the detection-record pipeline of `src/app.py`
  (football_ball_detection): the `detect_ball` selection loop and record
  construction, the JSON history-log load/append path, `get_statistics`,
  the inline summary computations of the PDF and Excel report routes, and
  the upload handling of the `index` route.

  Confidence scores are modelled as rationals; Python's `round(x, 2)`
  (round-half-to-even at two decimal places) is modelled by `round2`.
  Filesystem and JSON effects are modelled by the `HistFile` state:
  `missing` (no file), `empty` (exists, size 0), `valid rs` (exists,
  non-empty, parses as an array of records), `corrupt` (exists, non-empty,
  `json.load` raises). Operations that can raise return `Except String`.
-/

namespace BallDetection

/-- One detection box as exposed by the model collaborator: a class id
(`int(box.cls[0])`), a confidence score (`float(box.conf[0])`) and the four
integer corner coordinates (`map(int, box.xyxy[0])`). -/
structure Box where
  cls : Int
  conf : Rat
  xyxy : Int × Int × Int × Int
deriving DecidableEq, Repr

/-- One element `r` of `model(image)`: a per-image result holding a list of
boxes (`r.boxes`). `model(image)` on a single image yields a one-element
list `[r]`, whose `r.boxes` is the image's detection list. -/
structure YoloResult where
  boxes : List Box
deriving DecidableEq, Repr

/-- The mutable triple `(ball_detected, confidence, bbox)` of
`detect_ball`, initialised to `(False, 0, None)` at lines 30-32. -/
structure DetState where
  ball_detected : Bool
  confidence : Rat
  bbox : Option (Int × Int × Int × Int)
deriving DecidableEq, Repr

/-- Initial state of the detection loop: `ball_detected = False`,
`confidence = 0`, `bbox = None`. -/
def initState : DetState := ⟨false, 0, none⟩

/-- The state written when a box with class id 32 is hit: `ball_detected =
True`, `confidence = conf`, `bbox = [x1, y1, x2, y2]`. -/
def matchedState (b : Box) : DetState := ⟨true, b.conf, some b.xyxy⟩

/-- The inner loop `for box in r.boxes` of `detect_ball`: on the first box
with `cls == 32` it overwrites the state and `break`s; otherwise it leaves
the state unchanged. -/
def innerLoop (st : DetState) : List Box → DetState
  | [] => st
  | b :: rest => if b.cls == 32 then matchedState b else innerLoop st rest

/-- The outer loop `for r in results` of `detect_ball`: threads the state
through `innerLoop` on each result's boxes. (The `break` in the source
only exits the inner loop, so the outer loop continues.) -/
def detectLoop (st : DetState) : List YoloResult → DetState
  | [] => st
  | r :: rest => detectLoop (innerLoop st r.boxes) rest

/-- Round a rational to the nearest integer, ties to even: the semantics
of Python's built-in `round`. -/
def roundHalfEven (q : Rat) : Int :=
  let n := ⌊q⌋
  let frac := q - (n : Rat)
  if frac < 1/2 then n
  else if 1/2 < frac then n + 1
  else if n % 2 == 0 then n else n + 1

/-- Python's `round(q, 2)`: round to two decimal places, ties to even. -/
def round2 (q : Rat) : Rat := ((roundHalfEven (q * 100) : Int) : Rat) / 100

/-- The history record built at lines 54-60 of `src/app.py`: date string,
result image filename, detection flag, confidence rounded to 2 decimal
places, and the optional bounding box. -/
structure DetectionRecord where
  date : String
  image : String
  ball_detected : Bool
  confidence : Rat
  bbox : Option (Int × Int × Int × Int)
deriving DecidableEq, Repr

/-- State of `history/history.json` on disk, as distinguished by the
guard `os.path.exists(HISTORY_FILE) and os.path.getsize(HISTORY_FILE) > 0`
followed by `json.load`. -/
inductive HistFile where
  /-- The file does not exist. -/
  | missing
  /-- The file exists with size 0. -/
  | empty
  /-- The file exists, is non-empty, and parses as a JSON array of
  records. -/
  | valid (records : List DetectionRecord)
  /-- The file exists, is non-empty, and `json.load` raises
  `JSONDecodeError` on it. -/
  | corrupt
deriving DecidableEq, Repr

/-- The load pattern shared by every reader of the history file:
`if exists and size > 0: data = json.load(f) else: data = []`. A missing
or size-0 file yields `[]`; a valid file parses; a corrupt non-empty file
makes `json.load` raise (there is no try/except anywhere in the app). -/
def load_history : HistFile → Except String (List DetectionRecord)
  | .missing => .ok []
  | .empty => .ok []
  | .valid rs => .ok rs
  | .corrupt => .error "JSONDecodeError"

/-- `json.dump(data, f)` at lines 70-71: rewrites the whole file with the
serialised array, which then reparses as that array (even when empty,
the file holds the non-empty text of a JSON array). -/
def write_history (rs : List DetectionRecord) : HistFile := .valid rs

/-- The record `detect_ball` builds from the detection loop's final state:
`confidence` passes through `round(confidence, 2)`. -/
def detect_record (results : List YoloResult) (filename date : String) :
    DetectionRecord :=
  let st := detectLoop initState results
  { date := date
    image := filename
    ball_detected := st.ball_detected
    confidence := round2 st.confidence
    bbox := st.bbox }

/-- `detect_ball` (lines 26-73) with the image I/O and drawing effects
elided: runs the detection loop, builds the record, loads the history,
appends the record in memory and rewrites the file, returning
`(filename, record)` and the new file state. A failing `json.load`
propagates. -/
def detect_ball (results : List YoloResult) (filename date : String)
    (fs : HistFile) : Except String ((String × DetectionRecord) × HistFile) :=
  let record := detect_record results filename date
  match load_history fs with
  | .error e => .error e
  | .ok data => .ok ((filename, record), write_history (data ++ [record]))

/-- The dictionary returned by `get_statistics` (lines 88-93). -/
structure Stats where
  total_images : Int
  found : Int
  not_found : Int
  avg_confidence : Rat
deriving DecidableEq, Repr

/-- The aggregation body of `get_statistics` (lines 83-93): count of
records, count with `ball_detected`, their difference, and the rounded
mean confidence (0 on an empty history, guarding the division). -/
def compute_statistics (history : List DetectionRecord) : Stats :=
  let total : Int := history.length
  let found : Int := (history.filter (fun r => r.ball_detected)).length
  let not_found : Int := total - found
  let avg_confidence : Rat :=
    if 0 < total then
      round2 ((history.map (fun r => r.confidence)).sum / (total : Rat))
    else 0
  ⟨total, found, not_found, avg_confidence⟩

/-- `get_statistics` (lines 76-93): load the history (missing/size-0 file
as `[]`, corrupt file raising) and aggregate. -/
def get_statistics (fs : HistFile) : Except String Stats :=
  match load_history fs with
  | .error e => .error e
  | .ok history => .ok (compute_statistics history)

/-- The four summary values computed inline inside each report route. -/
structure ReportSummary where
  total_images : Int
  found : Int
  not_found : Int
  avg_confidence : Rat
deriving DecidableEq, Repr

/-- The summary block of `download_pdf` (lines 129-132): same counts as
`get_statistics`, but the mean confidence is not rounded
(`sum(...)/total_images if total_images else 0`). -/
def pdf_summary (history : List DetectionRecord) : ReportSummary :=
  let total_images : Int := history.length
  let found : Int := (history.filter (fun r => r.ball_detected)).length
  let not_found : Int := total_images - found
  let avg_confidence : Rat :=
    if total_images ≠ 0 then
      (history.map (fun r => r.confidence)).sum / (total_images : Rat)
    else 0
  ⟨total_images, found, not_found, avg_confidence⟩

/-- The summary row values of `download_excel` (lines 155-158): textually
the same computation as the PDF route's summary. -/
def excel_summary (history : List DetectionRecord) : ReportSummary :=
  let total_images : Int := history.length
  let found : Int := (history.filter (fun r => r.ball_detected)).length
  let not_found : Int := total_images - found
  let avg_confidence : Rat :=
    if total_images ≠ 0 then
      (history.map (fun r => r.confidence)).sum / (total_images : Rat)
    else 0
  ⟨total_images, found, not_found, avg_confidence⟩

/-- The `/download_pdf` route (lines 96-143) with the PDF rendering
elided: load the history (corrupt file raising) and compute the per-record
lines' data plus the summary block. -/
def download_pdf (fs : HistFile) :
    Except String (List DetectionRecord × ReportSummary) :=
  match load_history fs with
  | .error e => .error e
  | .ok history => .ok (history, pdf_summary history)

/-- The `/download_excel` route (lines 146-171) with the spreadsheet
serialisation elided: load the history (corrupt file raising) and compute
the data frame rows plus the summary row. -/
def download_excel (fs : HistFile) :
    Except String (List DetectionRecord × ReportSummary) :=
  match load_history fs with
  | .error e => .error e
  | .ok history => .ok (history, excel_summary history)

/-- The upload part of a POST to `/`, as seen by
`file = request.files["image"]` followed by `if file:`. -/
inductive PostFiles where
  /-- No `"image"` key in `request.files`: the indexing raises
  `BadRequestKeyError` (HTTP 400). -/
  | noField
  /-- The field is present but holds an empty file (no filename), which is
  falsy, so the `if file:` branch is skipped. -/
  | emptyFile
  /-- The field holds a real file; saving it and running the model yields
  these detection results. -/
  | imageFile (filename date : String) (results : List YoloResult)

/-- The rendering tail of `index` (lines 189-196): reload the history for
the template and compute statistics, passing through the optional result
of this request's detection. -/
def render_index (result : Option (String × DetectionRecord))
    (fs : HistFile) :
    Except String (Option (String × DetectionRecord) ×
      List DetectionRecord × Stats) :=
  match load_history fs with
  | .error e => .error e
  | .ok history =>
    match get_statistics fs with
    | .error e => .error e
    | .ok stats => .ok (result, history, stats)

/-- A GET to `/`: `result` stays `None` and the page is rendered from the
current history. -/
def index_get (fs : HistFile) :
    Except String (Option (String × DetectionRecord) ×
      List DetectionRecord × Stats) :=
  render_index none fs

/-- A POST to `/` (lines 179-196): `request.files["image"]` raises when
the field is absent; an empty file skips detection; otherwise
`detect_ball` runs and its result is rendered. Returns the rendered page
and the final history-file state. -/
def index_post (files : PostFiles) (fs : HistFile) :
    Except String ((Option (String × DetectionRecord) ×
      List DetectionRecord × Stats) × HistFile) :=
  match files with
  | .noField => .error "BadRequestKeyError"
  | .emptyFile =>
    match render_index none fs with
    | .error e => .error e
    | .ok page => .ok (page, fs)
  | .imageFile fn date results =>
    match detect_ball results fn date fs with
    | .error e => .error e
    | .ok (res, fs2) =>
      match render_index (some res) fs2 with
      | .error e => .error e
      | .ok page => .ok (page, fs2)

/-! Helper lemmas about the detection loop and rounding. -/

/-- If no box in the list has class id 32, the inner loop leaves the
state unchanged. -/
theorem innerLoop_no_match : ∀ (boxes : List Box) (st : DetState),
    (∀ b ∈ boxes, b.cls ≠ 32) → innerLoop st boxes = st
  | [], _, _ => rfl
  | b :: rest, st, h => by
    have hb : (b.cls == 32) = false :=
      beq_eq_false_iff_ne.mpr (h b (List.mem_cons_self b rest))
    simp only [innerLoop, hb, Bool.false_eq_true, if_false]
    exact innerLoop_no_match rest st fun x hx => h x (List.mem_cons_of_mem _ hx)

/-- If no box in any result has class id 32, the whole detection loop
leaves the state unchanged. -/
theorem detectLoop_no_match : ∀ (results : List YoloResult) (st : DetState),
    (∀ r ∈ results, ∀ b ∈ r.boxes, b.cls ≠ 32) → detectLoop st results = st
  | [], _, _ => rfl
  | r :: rest, st, h => by
    show detectLoop (innerLoop st r.boxes) rest = st
    rw [innerLoop_no_match r.boxes st (h r (List.mem_cons_self r rest))]
    exact detectLoop_no_match rest st fun x hx => h x (List.mem_cons_of_mem _ hx)

/-- A prefix of boxes with no class-32 member is skipped by the inner
loop. -/
theorem innerLoop_append : ∀ (pre : List Box) (st : DetState) (rest : List Box),
    (∀ x ∈ pre, x.cls ≠ 32) → innerLoop st (pre ++ rest) = innerLoop st rest
  | [], _, _, _ => rfl
  | x :: xs, st, rest, h => by
    have hx : (x.cls == 32) = false :=
      beq_eq_false_iff_ne.mpr (h x (List.mem_cons_self x xs))
    show innerLoop st (x :: (xs ++ rest)) = innerLoop st rest
    simp only [innerLoop, hx, Bool.false_eq_true, if_false]
    exact innerLoop_append xs st rest fun y hy => h y (List.mem_cons_of_mem _ hy)

/-- The inner loop stops at a class-32 box at the head of the list. -/
theorem innerLoop_cons_match (st : DetState) (b : Box) (post : List Box)
    (hb : b.cls = 32) : innerLoop st (b :: post) = matchedState b := by
  simp [innerLoop, hb]

/-- The inner loop either keeps the incoming state or ends in a matched
state. -/
theorem innerLoop_cases (st : DetState) (boxes : List Box) :
    innerLoop st boxes = st ∨ ∃ b, innerLoop st boxes = matchedState b := by
  induction boxes with
  | nil => exact Or.inl rfl
  | cons b rest ih =>
    by_cases hb : (b.cls == 32) = true
    · exact Or.inr ⟨b, by simp [innerLoop, hb]⟩
    · have hstep : innerLoop st (b :: rest) = innerLoop st rest := by
        simp only [innerLoop, Bool.not_eq_true] at hb ⊢
        simp [hb]
      rw [hstep]
      exact ih

/-- The detection loop either keeps the incoming state or ends in a
matched state. -/
theorem detectLoop_cases (results : List YoloResult) (st : DetState) :
    detectLoop st results = st ∨ ∃ b, detectLoop st results = matchedState b := by
  induction results generalizing st with
  | nil => exact Or.inl rfl
  | cons r rest ih =>
    have hh : detectLoop st (r :: rest) = detectLoop (innerLoop st r.boxes) rest := rfl
    rw [hh]
    rcases ih (innerLoop st r.boxes) with h | ⟨b, h⟩
    · rw [h]
      exact innerLoop_cases st r.boxes
    · exact Or.inr ⟨b, h⟩

/-- Rounding zero to two decimal places gives zero. -/
theorem round2_zero : round2 0 = 0 := by
  norm_num [round2, roundHalfEven]

/-! Claim theorems. -/

/-- C1: when an image's detection list (the boxes of the single model
result for that image) contains a class-32 detection, `detect_ball`
selects the first such detection in iteration order — every earlier box
has another class and whatever follows, including higher-confidence
balls, is ignored — and the resulting record has `ball_detected = true`,
a non-null bounding box equal to that detection's coordinates, and
confidence equal to that detection's score rounded to 2 decimal places. -/
theorem detect_ball_first_match (pre post : List Box) (b : Box)
    (fn date : String) (hpre : ∀ x ∈ pre, x.cls ≠ 32) (hb : b.cls = 32) :
    (detect_record [⟨pre ++ b :: post⟩] fn date).ball_detected = true ∧
    (detect_record [⟨pre ++ b :: post⟩] fn date).bbox = some b.xyxy ∧
    (detect_record [⟨pre ++ b :: post⟩] fn date).confidence = round2 b.conf := by
  have hst : detectLoop initState [⟨pre ++ b :: post⟩] = matchedState b := by
    have h1 : detectLoop initState [⟨pre ++ b :: post⟩] =
        innerLoop initState (pre ++ b :: post) := rfl
    rw [h1, innerLoop_append pre initState (b :: post) hpre,
      innerLoop_cons_match initState b post hb]
  refine ⟨?_, ?_, ?_⟩ <;> simp [detect_record, hst, matchedState]

/-- Witness for C1: a detection list holding a non-ball box, a ball at
confidence 1/2, and a later ball at higher confidence 9/10; the record
carries the middle detection's box and rounded score. -/
theorem detect_ball_first_match_witness :
    (detect_record [⟨[⟨0, 3/10, (0, 0, 5, 5)⟩, ⟨32, 1/2, (1, 2, 3, 4)⟩,
        ⟨32, 9/10, (6, 7, 8, 9)⟩]⟩] "ball.png"
      "2024-05-01 12:00:00").ball_detected = true ∧
    (detect_record [⟨[⟨0, 3/10, (0, 0, 5, 5)⟩, ⟨32, 1/2, (1, 2, 3, 4)⟩,
        ⟨32, 9/10, (6, 7, 8, 9)⟩]⟩] "ball.png"
      "2024-05-01 12:00:00").bbox = some (1, 2, 3, 4) ∧
    (detect_record [⟨[⟨0, 3/10, (0, 0, 5, 5)⟩, ⟨32, 1/2, (1, 2, 3, 4)⟩,
        ⟨32, 9/10, (6, 7, 8, 9)⟩]⟩] "ball.png"
      "2024-05-01 12:00:00").confidence = round2 (1/2) :=
  detect_ball_first_match [⟨0, 3/10, (0, 0, 5, 5)⟩] [⟨32, 9/10, (6, 7, 8, 9)⟩]
    ⟨32, 1/2, (1, 2, 3, 4)⟩ "ball.png" "2024-05-01 12:00:00"
    (by intro x hx; simp at hx; rw [hx]; decide) rfl

/-- C2: when no detection in any result has class id 32, the record has
`ball_detected = false`, `confidence = 0` and `bbox = none`, and the
history log after the call is the prior log with exactly this one record
appended at the end. -/
theorem detect_ball_no_detection (results : List YoloResult)
    (fn date : String) (fs : HistFile) (prior : List DetectionRecord)
    (hload : load_history fs = .ok prior)
    (hnone : ∀ r ∈ results, ∀ b ∈ r.boxes, b.cls ≠ 32) :
    (detect_record results fn date).ball_detected = false ∧
    (detect_record results fn date).confidence = 0 ∧
    (detect_record results fn date).bbox = none ∧
    detect_ball results fn date fs =
      .ok ((fn, detect_record results fn date),
        write_history (prior ++ [detect_record results fn date])) ∧
    (prior ++ [detect_record results fn date]).length = prior.length + 1 ∧
    (prior ++ [detect_record results fn date]).getLast? =
      some (detect_record results fn date) := by
  have hst : detectLoop initState results = initState :=
    detectLoop_no_match results initState hnone
  have hrec : detect_record results fn date =
      { date := date, image := fn, ball_detected := false,
        confidence := round2 0, bbox := none } := by
    simp only [detect_record]
    rw [hst]
    rfl
  refine ⟨?_, ?_, ?_, ?_, ?_, ?_⟩
  · rw [hrec]
  · rw [hrec, round2_zero]
  · rw [hrec]
  · simp [detect_ball, hload]
  · simp
  · simp

/-- Witness for C2: one result whose only box has class 0, run against a
missing history file. -/
theorem detect_ball_no_detection_witness :
    (detect_record [⟨[⟨0, 3/10, (0, 0, 5, 5)⟩]⟩] "empty.png"
      "2024-05-01 13:00:00").ball_detected = false ∧
    (detect_record [⟨[⟨0, 3/10, (0, 0, 5, 5)⟩]⟩] "empty.png"
      "2024-05-01 13:00:00").confidence = 0 ∧
    (detect_record [⟨[⟨0, 3/10, (0, 0, 5, 5)⟩]⟩] "empty.png"
      "2024-05-01 13:00:00").bbox = none ∧
    detect_ball [⟨[⟨0, 3/10, (0, 0, 5, 5)⟩]⟩] "empty.png"
      "2024-05-01 13:00:00" HistFile.missing =
      .ok (("empty.png", detect_record [⟨[⟨0, 3/10, (0, 0, 5, 5)⟩]⟩]
          "empty.png" "2024-05-01 13:00:00"),
        write_history (([] : List DetectionRecord) ++
          [detect_record [⟨[⟨0, 3/10, (0, 0, 5, 5)⟩]⟩]
            "empty.png" "2024-05-01 13:00:00"])) ∧
    (([] : List DetectionRecord) ++ [detect_record [⟨[⟨0, 3/10, (0, 0, 5, 5)⟩]⟩]
      "empty.png" "2024-05-01 13:00:00"]).length =
      ([] : List DetectionRecord).length + 1 ∧
    (([] : List DetectionRecord) ++ [detect_record [⟨[⟨0, 3/10, (0, 0, 5, 5)⟩]⟩]
      "empty.png" "2024-05-01 13:00:00"]).getLast? =
      some (detect_record [⟨[⟨0, 3/10, (0, 0, 5, 5)⟩]⟩] "empty.png"
        "2024-05-01 13:00:00") :=
  detect_ball_no_detection [⟨[⟨0, 3/10, (0, 0, 5, 5)⟩]⟩] "empty.png"
    "2024-05-01 13:00:00" HistFile.missing [] rfl
    (by intro r hr b hb; simp at hr hb; rw [hr] at hb; simp at hb; rw [hb]; decide)

/-- C3: the `avg_confidence` field of the statistics is the mean of the
stored confidence values over all records (not-found records contribute
their stored value) rounded to 2 decimal places, and 0 on an empty log. -/
theorem get_statistics_avg_confidence (history : List DetectionRecord) :
    (compute_statistics history).avg_confidence =
      if history.length = 0 then 0
      else round2 ((history.map (fun r => r.confidence)).sum /
        (history.length : Rat)) := by
  rcases Nat.eq_zero_or_pos history.length with h | h
  · simp [compute_statistics, h]
  · have h0 : (0 : Int) < (history.length : Int) := by exact_mod_cast h
    have hne : ¬ history.length = 0 := Nat.pos_iff_ne_zero.mp h
    simp only [compute_statistics, if_pos h0, if_neg hne]
    push_cast
    rfl

/-- C4: every record `detect_ball` appends to the history log satisfies
the invariant that `bbox` is null exactly when `ball_detected` is false,
and its stored confidence is a whole number of hundredths (the result of
rounding to 2 decimal places); moreover the appended record is exactly
`detect_record` of the model output. -/
theorem detect_record_invariant (results : List YoloResult)
    (fn date : String) :
    ((detect_record results fn date).bbox = none ↔
      (detect_record results fn date).ball_detected = false) ∧
    (∃ k : Int, (detect_record results fn date).confidence = (k : Rat) / 100) ∧
    ∀ data : List DetectionRecord,
      detect_ball results fn date (HistFile.valid data) =
        .ok ((fn, detect_record results fn date),
          write_history (data ++ [detect_record results fn date])) := by
  refine ⟨?_,
    ⟨roundHalfEven ((detectLoop initState results).confidence * 100), rfl⟩,
    fun data => rfl⟩
  rcases detectLoop_cases results initState with h | ⟨b, h⟩ <;>
    · simp only [detect_record]
      rw [h]
      simp [initState, matchedState]

/-- C5: on a log of N records of which F have `ball_detected = true`, the
statistics report `found = F`, `not_found = N - F` and `total_images = N`,
so `found + not_found = total_images` for every log. -/
theorem get_statistics_counts (history : List DetectionRecord) :
    (compute_statistics history).total_images = (history.length : Int) ∧
    (compute_statistics history).found =
      (history.countP (fun r => r.ball_detected) : Int) ∧
    (compute_statistics history).not_found =
      (history.length : Int) - (history.countP (fun r => r.ball_detected) : Int) ∧
    (compute_statistics history).found + (compute_statistics history).not_found =
      (compute_statistics history).total_images := by
  refine ⟨rfl, ?_, ?_, ?_⟩
  · simp [compute_statistics, List.countP_eq_length_filter]
  · simp [compute_statistics, List.countP_eq_length_filter]
  · simp only [compute_statistics]
    omega

/-- C6: the statistics of an empty history log are all zero, whether the
log file is absent, zero-sized, or holds an empty array, with the average
defined as 0 rather than by a division by zero. -/
theorem get_statistics_empty_log :
    compute_statistics [] = ⟨0, 0, 0, 0⟩ ∧
    get_statistics HistFile.missing = .ok ⟨0, 0, 0, 0⟩ ∧
    get_statistics HistFile.empty = .ok ⟨0, 0, 0, 0⟩ ∧
    get_statistics (HistFile.valid []) = .ok ⟨0, 0, 0, 0⟩ := by
  refine ⟨rfl, rfl, rfl, rfl⟩

/-- C7: appending a record through `detect_ball`'s log-write path and
reloading the file yields the prior records unchanged in order, followed
by the appended record as the last element. -/
theorem history_append_roundtrip (results : List YoloResult)
    (fn date : String) (fs : HistFile) (prior : List DetectionRecord)
    (hload : load_history fs = .ok prior) :
    detect_ball results fn date fs =
      .ok ((fn, detect_record results fn date),
        write_history (prior ++ [detect_record results fn date])) ∧
    load_history (write_history (prior ++ [detect_record results fn date])) =
      .ok (prior ++ [detect_record results fn date]) ∧
    (prior ++ [detect_record results fn date]).getLast? =
      some (detect_record results fn date) ∧
    (prior ++ [detect_record results fn date]).take prior.length = prior := by
  refine ⟨?_, rfl, ?_, ?_⟩
  · simp [detect_ball, hload]
  · simp
  · simp

/-- Witness for C7: appending on top of a one-record valid history
file. -/
theorem history_append_roundtrip_witness :
    detect_ball [⟨[⟨32, 3/4, (1, 1, 2, 2)⟩]⟩] "new.png" "2024-05-02 09:00:00"
      (HistFile.valid [⟨"2024-05-01 11:00:00", "old.png", false, 0, none⟩]) =
      .ok (("new.png", detect_record [⟨[⟨32, 3/4, (1, 1, 2, 2)⟩]⟩] "new.png"
          "2024-05-02 09:00:00"),
        write_history ([⟨"2024-05-01 11:00:00", "old.png", false, 0, none⟩] ++
          [detect_record [⟨[⟨32, 3/4, (1, 1, 2, 2)⟩]⟩] "new.png"
            "2024-05-02 09:00:00"])) ∧
    load_history (write_history
        ([⟨"2024-05-01 11:00:00", "old.png", false, 0, none⟩] ++
          [detect_record [⟨[⟨32, 3/4, (1, 1, 2, 2)⟩]⟩] "new.png"
            "2024-05-02 09:00:00"])) =
      .ok ([⟨"2024-05-01 11:00:00", "old.png", false, 0, none⟩] ++
        [detect_record [⟨[⟨32, 3/4, (1, 1, 2, 2)⟩]⟩] "new.png"
          "2024-05-02 09:00:00"]) ∧
    (([⟨"2024-05-01 11:00:00", "old.png", false, 0, none⟩] :
        List DetectionRecord) ++
      [detect_record [⟨[⟨32, 3/4, (1, 1, 2, 2)⟩]⟩] "new.png"
        "2024-05-02 09:00:00"]).getLast? =
      some (detect_record [⟨[⟨32, 3/4, (1, 1, 2, 2)⟩]⟩] "new.png"
        "2024-05-02 09:00:00") ∧
    (([⟨"2024-05-01 11:00:00", "old.png", false, 0, none⟩] :
        List DetectionRecord) ++
      [detect_record [⟨[⟨32, 3/4, (1, 1, 2, 2)⟩]⟩] "new.png"
        "2024-05-02 09:00:00"]).take
      ([⟨"2024-05-01 11:00:00", "old.png", false, 0, none⟩] :
        List DetectionRecord).length =
      [⟨"2024-05-01 11:00:00", "old.png", false, 0, none⟩] :=
  history_append_roundtrip [⟨[⟨32, 3/4, (1, 1, 2, 2)⟩]⟩] "new.png"
    "2024-05-02 09:00:00"
    (HistFile.valid [⟨"2024-05-01 11:00:00", "old.png", false, 0, none⟩])
    [⟨"2024-05-01 11:00:00", "old.png", false, 0, none⟩] rfl

/-- C8 counterexample: a corrupt non-empty history file is not treated as
an empty history — `json.load` raises and every reading operation fails
(there is no exception handler in the app). -/
theorem history_corrupt_file_fails :
    get_statistics HistFile.corrupt = .error "JSONDecodeError" ∧
    detect_ball [] "img.png" "2024-05-01 12:00:00" HistFile.corrupt =
      .error "JSONDecodeError" ∧
    download_pdf HistFile.corrupt = .error "JSONDecodeError" ∧
    download_excel HistFile.corrupt = .error "JSONDecodeError" ∧
    index_get HistFile.corrupt = .error "JSONDecodeError" := by
  refine ⟨rfl, rfl, rfl, rfl, rfl⟩

/-- C8 amended: every operation that reads the history log treats a
missing file and a zero-size file as an empty history, while a corrupt
non-empty file makes the JSON parse raise and the operation fail. -/
theorem history_missing_or_empty_as_empty :
    get_statistics HistFile.missing = get_statistics (HistFile.valid []) ∧
    get_statistics HistFile.empty = get_statistics (HistFile.valid []) ∧
    download_pdf HistFile.missing = .ok ([], pdf_summary []) ∧
    download_pdf HistFile.empty = .ok ([], pdf_summary []) ∧
    download_excel HistFile.missing = .ok ([], excel_summary []) ∧
    download_excel HistFile.empty = .ok ([], excel_summary []) ∧
    index_get HistFile.missing = index_get (HistFile.valid []) ∧
    index_get HistFile.empty = index_get (HistFile.valid []) ∧
    (∀ (results : List YoloResult) (fn date : String),
      detect_ball results fn date HistFile.missing =
        detect_ball results fn date (HistFile.valid []) ∧
      detect_ball results fn date HistFile.empty =
        detect_ball results fn date (HistFile.valid [])) := by
  refine ⟨rfl, rfl, rfl, rfl, rfl, rfl, rfl, rfl,
    fun results fn date => ⟨rfl, rfl⟩⟩

/-- C9 counterexample: a POST to `/` with no upload field does not render
the page — `request.files["image"]` raises `BadRequestKeyError`. -/
theorem index_post_missing_field_fails :
    index_post PostFiles.noField (HistFile.valid []) =
      .error "BadRequestKeyError" := rfl

/-- C9 amended: a POST to `/` whose upload field holds an empty file
performs no detection, leaves the history-file state unchanged, and
renders the same page as a GET; a POST with a missing upload field fails
with `BadRequestKeyError` instead. -/
theorem index_post_empty_file_unchanged (fs : HistFile) :
    index_post PostFiles.emptyFile fs =
      Except.map (fun page => (page, fs)) (index_get fs) ∧
    ∀ fs2 : HistFile,
      index_post PostFiles.noField fs2 = .error "BadRequestKeyError" := by
  refine ⟨?_, fun fs2 => rfl⟩
  show (match render_index none fs with
    | .error e => Except.error e
    | .ok page => .ok (page, fs)) =
    Except.map (fun page => (page, fs)) (render_index none fs)
  cases render_index none fs <;> rfl

/-- C10: the summary values computed inline in the PDF and Excel report
routes agree with each other and with `get_statistics` on the three
counts, and the reports' average confidence is the same mean that
`get_statistics` rounds to 2 decimal places. -/
theorem reports_match_statistics (history : List DetectionRecord) :
    excel_summary history = pdf_summary history ∧
    (pdf_summary history).total_images = (compute_statistics history).total_images ∧
    (pdf_summary history).found = (compute_statistics history).found ∧
    (pdf_summary history).not_found = (compute_statistics history).not_found ∧
    (compute_statistics history).avg_confidence =
      round2 (pdf_summary history).avg_confidence := by
  refine ⟨rfl, rfl, rfl, rfl, ?_⟩
  rcases Nat.eq_zero_or_pos history.length with h | h
  · simp [compute_statistics, pdf_summary, h, round2_zero]
  · have h0 : (0 : Int) < (history.length : Int) := by exact_mod_cast h
    have hne : ((history.length : Int)) ≠ 0 := by omega
    simp only [compute_statistics, pdf_summary, if_pos h0, if_neg, hne]
    rw [if_pos hne]

end BallDetection
